import Mathlib

/-!
Shallow embedding of the YouTube Speed Extender content script
(`content.js`): the speed table, the localStorage-backed preference
accessors, the closest-speed-index lookup, and the event handlers of the
speed-reconciliation logic (keydown, augmented-menu click, ratechange,
seeking/seeked, preferred/navigation speed application) together with the
continuations they schedule via setTimeout.

Conventions of the embedding:
* JS numbers are rationals; `Math.abs` is `|·|`; `Math.round` is
  `fun x => Int.floor (x + 1/2)` (ties toward positive infinity).
* localStorage cells are modelled per key.  A numeric cell is a
  `StoredNum`: `absent` (getItem returns null), `empty` (the stored
  string is "" and hence falsy), `num q` (a truthy string whose
  parseFloat is `q`), or `nonNum` (a truthy string whose parseFloat is
  NaN; NaN is never a member of `speedOptions`).  String cells
  (navigation mode, shortcut keys) are `Option String`.
* DOM-only effects (overlay, menu markup) are not part of the state; the
  function `updateYouTubeSpeedSetting` only touches the DOM inside a
  `try … finally` that restores `isUpdatingSpeed`, so at callback
  granularity its state effect is: no-op when the flag is already set,
  and flag-left-false otherwise.
* Each handler returns a `Step`: the new state, the list of
  continuations scheduled with setTimeout (delay in ms, payload), and
  the list of values assigned to `video.playbackRate`, in order.
-/

namespace YtSpeed

/-- The `speedOptions` array of content.js. -/
def speedOptions : List ℚ := [0.5, 1, 1.5, 2, 2.5, 3, 3.5, 4, 4.5, 5]

/-- `Object.values(NAVIGATION_MODES)`. -/
def navigationModeValues : List String := ["continue", "default", "custom"]

/-- A numeric localStorage cell as seen through `getItem`, truthiness and
`parseFloat`. -/
inductive StoredNum where
  | absent : StoredNum
  | empty : StoredNum
  | num : ℚ → StoredNum
  | nonNum : StoredNum
deriving DecidableEq, Repr

/-- The six localStorage entries used by the extension. -/
structure Store where
  preferredSpeed : StoredNum
  keyboardSpeed : StoredNum
  navigationMode : Option String
  customNavigationSpeed : StoredNum
  increaseKey : Option String
  decreaseKey : Option String
deriving DecidableEq, Repr

/-- `savePreferredSpeed` (content.js line 47). -/
def savePreferredSpeed (speed : ℚ) (st : Store) : Store :=
  { st with preferredSpeed := StoredNum.num speed }

/-- `loadPreferredSpeed` (content.js line 59). -/
def loadPreferredSpeed (st : Store) : ℚ :=
  match st.preferredSpeed with
  | StoredNum.num speed => if speed ∈ speedOptions then speed else 1
  | _ => 1

/-- `saveNavigationMode` (content.js line 78): only valid modes are written. -/
def saveNavigationMode (mode : String) (st : Store) : Store :=
  if mode ∈ navigationModeValues then { st with navigationMode := some mode } else st

/-- `loadNavigationMode` (content.js line 92): requires a truthy stored
string that is one of the recognized modes, else the default. -/
def loadNavigationMode (st : Store) : String :=
  match st.navigationMode with
  | some savedMode =>
      if savedMode ≠ "" ∧ savedMode ∈ navigationModeValues then savedMode else "continue"
  | none => "continue"

/-- `saveCustomNavigationSpeed` (content.js line 108). -/
def saveCustomNavigationSpeed (speed : ℚ) (st : Store) : Store :=
  if speed ∈ speedOptions then { st with customNavigationSpeed := StoredNum.num speed } else st

/-- `loadCustomNavigationSpeed` (content.js line 122). -/
def loadCustomNavigationSpeed (st : Store) : ℚ :=
  match st.customNavigationSpeed with
  | StoredNum.num speed => if speed ∈ speedOptions then speed else 1
  | _ => 1

/-- `getNavigationSpeed` (content.js line 145): switch on the loaded mode. -/
def getNavigationSpeed (st : Store) : ℚ :=
  let navigationMode := loadNavigationMode st
  if navigationMode = "continue" then loadPreferredSpeed st
  else if navigationMode = "default" then 1
  else if navigationMode = "custom" then loadCustomNavigationSpeed st
  else loadPreferredSpeed st

/-- `saveKeyboardSpeed` (content.js line 1345): writes both the keyboard
entry and the preferred-speed entry. -/
def saveKeyboardSpeed (speed : ℚ) (st : Store) : Store :=
  { st with keyboardSpeed := StoredNum.num speed, preferredSpeed := StoredNum.num speed }

/-- `loadKeyboardSpeed` (content.js line 1359): falls back to the
preferred speed when the keyboard entry is absent or invalid. -/
def loadKeyboardSpeed (st : Store) : ℚ :=
  match st.keyboardSpeed with
  | StoredNum.num speed => if speed ∈ speedOptions then speed else loadPreferredSpeed st
  | _ => loadPreferredSpeed st

/-- `saveIncreaseSpeedKey` (content.js line 1380): stored unvalidated. -/
def saveIncreaseSpeedKey (key : String) (st : Store) : Store :=
  { st with increaseKey := some key }

/-- `loadIncreaseSpeedKey` (content.js line 1392): `savedKey || '.'`. -/
def loadIncreaseSpeedKey (st : Store) : String :=
  match st.increaseKey with
  | some savedKey => if savedKey = "" then "." else savedKey
  | none => "."

/-- `saveDecreaseSpeedKey` (content.js line 1406). -/
def saveDecreaseSpeedKey (key : String) (st : Store) : Store :=
  { st with decreaseKey := some key }

/-- `loadDecreaseSpeedKey` (content.js line 1418): `savedKey || ','`. -/
def loadDecreaseSpeedKey (st : Store) : String :=
  match st.decreaseKey with
  | some savedKey => if savedKey = "" then "," else savedKey
  | none => ","

/-- `Math.round(currentRate * 10) / 10` (content.js line 174). -/
def roundTenth (currentRate : ℚ) : ℚ :=
  ((⌊currentRate * 10 + 1 / 2⌋ : ℤ) : ℚ) / 10

/-- The exact-match scan of `getClosestSpeedIndex` (content.js lines
177-181): first index whose entry is within 0.05 of the rounded rate. -/
def exactLoop (roundedRate : ℚ) : List ℚ → ℕ → Option ℕ
  | [], _ => none
  | x :: rest, i =>
      if |x - roundedRate| < 0.05 then some i else exactLoop roundedRate rest (i + 1)

/-- The `reduce` fallback of `getClosestSpeedIndex` (content.js lines
184-186): index of the entry at strictly smaller distance than the
accumulator, scanning left to right from accumulator 0. -/
def closestReduce (roundedRate : ℚ) : List ℚ → ℕ → ℕ → ℕ
  | [], _, prevIdx => prevIdx
  | curr :: rest, idx, prevIdx =>
      closestReduce roundedRate rest (idx + 1)
        (if |curr - roundedRate| < |speedOptions.getD prevIdx 0 - roundedRate| then idx
         else prevIdx)

/-- `getClosestSpeedIndex` (content.js line 172). -/
def getClosestSpeedIndex (currentRate : ℚ) : ℕ :=
  match exactLoop (roundTenth currentRate) speedOptions 0 with
  | some i => i
  | none => closestReduce (roundTenth currentRate) speedOptions 0 0

/-- Distance from the table entry at index `i` to a rate. -/
def distTo (roundedRate : ℚ) (i : ℕ) : ℚ :=
  |speedOptions.getD i 0 - roundedRate|

/-- The mutable script state relevant to speed reconciliation: the
module-level flags of content.js (lines 19-26), the closure-local
`isSeeking` of `setupSpeedSynchronization` (line 436), the media
element's playback rate and the localStorage contents. -/
structure XState where
  isUpdatingSpeed : Bool
  isApplyingNavigationSpeed : Bool
  isNavigating : Bool
  isSeeking : Bool
  lastRateChangeTime : ℤ
  lastRateChangeValue : ℚ
  videoRate : ℚ
  store : Store
deriving DecidableEq, Repr

/-- Continuations the handlers schedule with `setTimeout`. -/
inductive Task where
  /-- keydown / menu click follow-up (lines 420-423 and 657-659):
  `updateYouTubeSpeedSetting` plus DOM-only menu refreshes. -/
  | menuRefresh : ℚ → Task
  /-- the 50 ms `savePreferredSpeed(targetSpeed)` of continue mode
  (lines 267-269 and 278-280). -/
  | savePref : ℚ → Task
  /-- the 100 ms settle continuation of `applyPreferredSpeed`
  (lines 257-273). -/
  | applySettle : ℚ → Bool → Task
  /-- the inner 100 ms settle of the seek recovery and of the
  navigation re-assertion (lines 454-457 and 488-491). -/
  | settleUpdate : ℚ → Task
  /-- the 100 ms post-`seeked` recheck (lines 447-459). -/
  | seekRecheck : Task
  /-- the 500 ms navigation-reset re-assertion (lines 484-493),
  capturing `savedSpeed`. -/
  | navReassert : ℚ → Task
deriving DecidableEq, Repr

/-- Result of running one handler or one scheduled task: the new state,
the continuations scheduled (setTimeout delay in ms, payload), and the
rates assigned to `video.playbackRate`, in order. -/
structure Step where
  state : XState
  tasks : List (ℕ × Task)
  writes : List ℚ
deriving DecidableEq, Repr

/-- `updateYouTubeSpeedSetting` (content.js line 193): returns at once
when `isUpdatingSpeed` is set; otherwise its body only touches the DOM
inside `try … finally`, setting the flag and restoring it to false. -/
def updateYouTubeSpeedSettingFn (s : XState) : XState :=
  if s.isUpdatingSpeed then s else { s with isUpdatingSpeed := false }

/-- The keydown handler (content.js lines 375-426). -/
def keydownStep (key : String) (ctrlKey shiftKey editableTarget : Bool)
    (s : XState) : Step :=
  if editableTarget then ⟨s, [], []⟩
  else if ctrlKey && shiftKey && key = "S" then ⟨s, [], []⟩
  else
    let increaseKey := loadIncreaseSpeedKey s.store
    let decreaseKey := loadDecreaseSpeedKey s.store
    if key ≠ increaseKey ∧ key ≠ decreaseKey then ⟨s, [], []⟩
    else
      let current := s.videoRate
      let currentIndex := getClosestSpeedIndex current
      let newIndex :=
        if key = increaseKey then min (currentIndex + 1) (speedOptions.length - 1)
        else if key = decreaseKey then currentIndex - 1
        else currentIndex
      let newRate := speedOptions.getD newIndex 0
      if newIndex ≠ currentIndex then
        { state := { s with isUpdatingSpeed := true, videoRate := newRate,
                            store := saveKeyboardSpeed newRate s.store },
          tasks := [(0, Task.menuRefresh newRate)],
          writes := [newRate] }
      else ⟨s, [], []⟩

/-- Click handler of an augmented speed-menu entry (content.js lines
651-661): `speed` is the entry the item was built from. -/
def menuClickStep (speed : ℚ) (s : XState) : Step :=
  { state := { s with isUpdatingSpeed := true, videoRate := speed,
                      store := savePreferredSpeed speed s.store },
    tasks := [(0, Task.menuRefresh speed)],
    writes := [speed] }

/-- The `ratechange` handler (content.js lines 461-505). -/
def ratechangeStep (now : ℤ) (s : XState) : Step :=
  if s.isUpdatingSpeed then ⟨s, [], []⟩
  else
    let currentRate := s.videoRate
    if now - s.lastRateChangeTime < 100 ∧ |currentRate - s.lastRateChangeValue| < 0.01 then
      ⟨s, [], []⟩
    else
      let s1 := { s with lastRateChangeTime := now, lastRateChangeValue := currentRate }
      if ¬s1.isSeeking ∧ ¬s1.isApplyingNavigationSpeed ∧ currentRate ∈ speedOptions then
        let navigationMode := loadNavigationMode s1.store
        let savedSpeed := loadPreferredSpeed s1.store
        if navigationMode = "continue" ∧ currentRate = 1 ∧ savedSpeed > 1 ∧ s1.isNavigating then
          ⟨s1, [(500, Task.navReassert savedSpeed)], []⟩
        else if ¬s1.isNavigating ∨ currentRate ≠ 1 then
          ⟨{ s1 with store := savePreferredSpeed currentRate s1.store }, [], []⟩
        else ⟨s1, [], []⟩
      else ⟨s1, [], []⟩

/-- The `seeking` handler (content.js lines 439-441). -/
def seekingStep (s : XState) : Step :=
  ⟨{ s with isSeeking := true }, [], []⟩

/-- The `seeked` handler (content.js lines 443-459): clears the flag and
schedules the 100 ms recheck. -/
def seekedStep (s : XState) : Step :=
  ⟨{ s with isSeeking := false }, [(100, Task.seekRecheck)], []⟩

/-- `applyPreferredSpeed` (content.js lines 241-283), assuming a video
element is present. -/
def applyPreferredSpeedStep (isNavigation : Bool) (s : XState) : Step :=
  let targetSpeed := if isNavigation then getNavigationSpeed s.store else loadPreferredSpeed s.store
  let currentSpeed := s.videoRate
  if |currentSpeed - targetSpeed| > 0.05 then
    { state := { s with isUpdatingSpeed := true,
                        isApplyingNavigationSpeed :=
                          if isNavigation then true else s.isApplyingNavigationSpeed,
                        videoRate := targetSpeed },
      tasks := [(100, Task.applySettle targetSpeed isNavigation)],
      writes := [targetSpeed] }
  else if isNavigation ∧ loadNavigationMode s.store = "continue" then
    ⟨s, [(50, Task.savePref targetSpeed)], []⟩
  else ⟨s, [], []⟩

/-- Execution of one scheduled continuation. -/
def runTask : Task → XState → Step
  | Task.menuRefresh _, s => ⟨updateYouTubeSpeedSettingFn s, [], []⟩
  | Task.savePref rate, s => ⟨{ s with store := savePreferredSpeed rate s.store }, [], []⟩
  | Task.applySettle target isNavigation, s =>
      let s1 := { s with isUpdatingSpeed := false }
      if isNavigation then
        let s2 := { s1 with isApplyingNavigationSpeed := false }
        if loadNavigationMode s2.store = "continue" then
          ⟨updateYouTubeSpeedSettingFn s2, [(50, Task.savePref target)], []⟩
        else ⟨updateYouTubeSpeedSettingFn s2, [], []⟩
      else ⟨updateYouTubeSpeedSettingFn s1, [], []⟩
  | Task.settleUpdate _, s =>
      ⟨updateYouTubeSpeedSettingFn { s with isUpdatingSpeed := false }, [], []⟩
  | Task.seekRecheck, s =>
      let preferredSpeed := loadPreferredSpeed s.store
      let currentSpeed := s.videoRate
      if preferredSpeed ≠ 1 ∧ |currentSpeed - preferredSpeed| > 0.05 then
        { state := { s with isUpdatingSpeed := true, videoRate := preferredSpeed },
          tasks := [(100, Task.settleUpdate preferredSpeed)],
          writes := [preferredSpeed] }
      else ⟨s, [], []⟩
  | Task.navReassert savedSpeed, s =>
      if s.videoRate = 1 then
        { state := { s with isUpdatingSpeed := true, videoRate := savedSpeed },
          tasks := [(100, Task.settleUpdate savedSpeed)],
          writes := [savedSpeed] }
      else ⟨s, [], []⟩

/-- The externally triggered operations of the reconciliation logic. -/
inductive Op where
  | keydown : String → Bool → Bool → Bool → Op
  | menuClick : ℚ → Op
  | ratechangeEv : ℤ → Op
  | seekingEv : Op
  | seekedEv : Op
  | applyPreferred : Bool → Op
deriving DecidableEq, Repr

/-- Dispatch an operation to its handler. -/
def runOp : Op → XState → Step
  | Op.keydown key c sh ed, s => keydownStep key c sh ed s
  | Op.menuClick speed, s => menuClickStep speed s
  | Op.ratechangeEv now, s => ratechangeStep now s
  | Op.seekingEv, s => seekingStep s
  | Op.seekedEv, s => seekedStep s
  | Op.applyPreferred isNavigation, s => applyPreferredSpeedStep isNavigation s

/-- Table validity of an operation's target: augmented-menu items are
built from `speedOptions` entries (content.js line 633). -/
def OpValid : Op → Prop
  | Op.menuClick speed => speed ∈ speedOptions
  | _ => True

/-- A scheduled continuation whose captured rate payload can reach the
media element is table-safe. -/
def TaskSafe : Task → Prop
  | Task.navReassert savedSpeed => savedSpeed ∈ speedOptions
  | _ => True

/-- The form state of the settings modal at save time: the checked
navigation-mode radio, the custom-speed select value, and the two
shortcut-key input values. -/
structure ModalState where
  selectedMode : String
  customSpeedValue : ℚ
  increaseInputValue : String
  decreaseInputValue : String
deriving DecidableEq, Repr

/-- The save-settings click handler (content.js lines 1251-1286):
navigation mode (and custom speed, in custom mode) are saved first; the
duplicate-key validation only guards the two key writes. -/
def saveSettingsClick (m : ModalState) (st : Store) : Store :=
  let st1 := saveNavigationMode m.selectedMode st
  let st2 :=
    if m.selectedMode = "custom" then saveCustomNavigationSpeed m.customSpeedValue st1 else st1
  let increaseKey := if m.increaseInputValue = "" then "." else m.increaseInputValue
  let decreaseKey := if m.decreaseInputValue = "" then "," else m.decreaseInputValue
  if increaseKey = decreaseKey then st2
  else saveDecreaseSpeedKey decreaseKey (saveIncreaseSpeedKey increaseKey st2)

/-- A store with all six entries absent. -/
def emptyStore : Store :=
  { preferredSpeed := StoredNum.absent, keyboardSpeed := StoredNum.absent,
    navigationMode := none, customNavigationSpeed := StoredNum.absent,
    increaseKey := none, decreaseKey := none }

/-- The script state right after load on a fresh profile: all flags
clear, rate 1, dedup fields at their initial values (lines 23-24). -/
def initState : XState :=
  { isUpdatingSpeed := false, isApplyingNavigationSpeed := false,
    isNavigating := false, isSeeking := false,
    lastRateChangeTime := 0, lastRateChangeValue := 1,
    videoRate := 1, store := emptyStore }

/-- State reached right after the keydown handler processes an
increase-key press in `initState`. -/
def afterKeydownState : XState :=
  (keydownStep "." false false false initState).state

/-- State reached after the keydown handler's only scheduled
continuation has also run. -/
def afterMenuRefreshState : XState :=
  (runTask (Task.menuRefresh 1.5) afterKeydownState).state

/-- A state whose last observed rate change was 1.47 at time 0: a new
report of 1.5 at time 50 is within 0.05 but not within 0.01. -/
def dedupCexState : XState :=
  { isUpdatingSpeed := false, isApplyingNavigationSpeed := false,
    isNavigating := false, isSeeking := false,
    lastRateChangeTime := 0, lastRateChangeValue := 1.47,
    videoRate := 1.5, store := emptyStore }

/-- Store with preferred speed 2 and continue mode persisted. -/
def navCexStore : Store :=
  { preferredSpeed := StoredNum.num 2, keyboardSpeed := StoredNum.absent,
    navigationMode := some "continue", customNavigationSpeed := StoredNum.absent,
    increaseKey := none, decreaseKey := none }

/-- Mid-navigation state observing a silent host reset to rate 1. -/
def navCexState : XState :=
  { isUpdatingSpeed := false, isApplyingNavigationSpeed := false,
    isNavigating := true, isSeeking := false,
    lastRateChangeTime := 0, lastRateChangeValue := 2,
    videoRate := 1, store := navCexStore }

/-- Store whose persisted preferred speed is the neutral entry 1. -/
def neutralPrefStore : Store :=
  { preferredSpeed := StoredNum.num 1, keyboardSpeed := StoredNum.absent,
    navigationMode := none, customNavigationSpeed := StoredNum.absent,
    increaseKey := none, decreaseKey := none }

/-- Post-seek state: media rate 2 while the persisted preferred speed
is 1 — diverging by more than epsilon. -/
def seekNeutralState : XState :=
  { isUpdatingSpeed := false, isApplyingNavigationSpeed := false,
    isNavigating := false, isSeeking := false,
    lastRateChangeTime := 0, lastRateChangeValue := 2,
    videoRate := 2, store := neutralPrefStore }

/-- Store with preferred speed 3 persisted. -/
def pref3Store : Store :=
  { preferredSpeed := StoredNum.num 3, keyboardSpeed := StoredNum.absent,
    navigationMode := none, customNavigationSpeed := StoredNum.absent,
    increaseKey := none, decreaseKey := none }

/-- Mid-seek state at rate 3 with preferred speed 3, then a host rate
report; also used for the post-seek recovery witness at rate 1. -/
def seekWitState : XState :=
  { isUpdatingSpeed := false, isApplyingNavigationSpeed := false,
    isNavigating := false, isSeeking := true,
    lastRateChangeTime := 0, lastRateChangeValue := 3,
    videoRate := 1, store := pref3Store }

/-- Modal form state: mode switched to default, both key inputs 'k'. -/
def modalCex : ModalState :=
  { selectedMode := "default", customSpeedValue := 2,
    increaseInputValue := "k", decreaseInputValue := "k" }

/-- Store before the invalid save attempt: continue mode and the
default keys persisted. -/
def modalCexStore : Store :=
  { preferredSpeed := StoredNum.absent, keyboardSpeed := StoredNum.absent,
    navigationMode := some "continue", customNavigationSpeed := StoredNum.absent,
    increaseKey := some ".", decreaseKey := some "," }

/-- Store whose increase-key entry holds the two-character string "ab",
which is not a single printable character. -/
def badKeyStore : Store :=
  { preferredSpeed := StoredNum.absent, keyboardSpeed := StoredNum.absent,
    navigationMode := none, customNavigationSpeed := StoredNum.absent,
    increaseKey := some "ab", decreaseKey := none }

theorem one_mem_speedOptions : (1 : ℚ) ∈ speedOptions := by
  norm_num [speedOptions]

theorem loadPreferredSpeed_mem (st : Store) : loadPreferredSpeed st ∈ speedOptions := by
  unfold loadPreferredSpeed
  split
  · split_ifs with h
    · exact h
    · exact one_mem_speedOptions
  · exact one_mem_speedOptions

theorem loadCustomNavigationSpeed_mem (st : Store) :
    loadCustomNavigationSpeed st ∈ speedOptions := by
  unfold loadCustomNavigationSpeed
  split
  · split_ifs with h
    · exact h
    · exact one_mem_speedOptions
  · exact one_mem_speedOptions

theorem getNavigationSpeed_mem (st : Store) : getNavigationSpeed st ∈ speedOptions := by
  unfold getNavigationSpeed
  dsimp only
  split_ifs
  · exact loadPreferredSpeed_mem st
  · exact one_mem_speedOptions
  · exact loadCustomNavigationSpeed_mem st
  · exact loadPreferredSpeed_mem st

theorem speedOptions_getD_mem :
    ∀ i, i < speedOptions.length → speedOptions.getD i 0 ∈ speedOptions := by
  intro i hi
  have hl : speedOptions.length = 10 := rfl
  rw [hl] at hi
  interval_cases i <;> norm_num [speedOptions]

theorem exactLoop_spec (rr : ℚ) :
    ∀ (l : List ℚ) (i : ℕ), l = speedOptions.drop i →
      (∀ j, exactLoop rr l i = some j →
        i ≤ j ∧ j < speedOptions.length ∧ distTo rr j < 0.05 ∧
          ∀ m, i ≤ m → m < j → ¬ distTo rr m < 0.05) ∧
      (exactLoop rr l i = none →
        ∀ m, i ≤ m → m < speedOptions.length → ¬ distTo rr m < 0.05) := by
  intro l
  induction l with
  | nil =>
      intro i hi
      have hlen : speedOptions.length ≤ i := by
        rw [← List.drop_eq_nil_iff]; exact hi.symm
      constructor
      · intro j hj; simp [exactLoop] at hj
      · intro _ m him hm; omega
  | cons x rest ih =>
      intro i hi
      have hilt : i < speedOptions.length := by
        by_contra hc
        push_neg at hc
        rw [List.drop_eq_nil_of_le hc] at hi
        exact absurd hi (by simp)
      rw [List.drop_eq_getElem_cons hilt] at hi
      injection hi with hx hrest
      have hgd : speedOptions.getD i 0 = speedOptions[i] := by
        rw [List.getD_eq_getElem?_getD, List.getElem?_eq_getElem hilt]
        rfl
      have hxd : |x - rr| = distTo rr i := by
        rw [hx, distTo, hgd]
      constructor
      · intro j hj
        simp only [exactLoop] at hj
        split_ifs at hj with hcl
        · injection hj with hj'
          subst hj'
          exact ⟨le_refl _, hilt, by rwa [← hxd], fun m him hmi => by omega⟩
        · obtain ⟨h1, h2, h3, h4⟩ := (ih (i + 1) hrest).1 j hj
          refine ⟨by omega, h2, h3, ?_⟩
          intro m him hmj
          rcases eq_or_lt_of_le him with rfl | hlt
          · rwa [← hxd]
          · exact h4 m (by omega) hmj
      · intro hnone m him hm
        simp only [exactLoop] at hnone
        split_ifs at hnone with hcl
        rcases eq_or_lt_of_le him with rfl | hlt
        · rwa [← hxd]
        · exact (ih (i + 1) hrest).2 hnone m (by omega) hm

theorem closestReduce_spec (rr : ℚ) :
    ∀ (l : List ℚ) (idx prevIdx : ℕ), l = speedOptions.drop idx →
      prevIdx < speedOptions.length →
      (∀ j, j < idx → distTo rr prevIdx ≤ distTo rr j) →
      (∀ j, j < prevIdx → distTo rr prevIdx < distTo rr j) →
      closestReduce rr l idx prevIdx < speedOptions.length ∧
      (∀ j, j < speedOptions.length → distTo rr (closestReduce rr l idx prevIdx) ≤ distTo rr j) ∧
      (∀ j, j < closestReduce rr l idx prevIdx →
        distTo rr (closestReduce rr l idx prevIdx) < distTo rr j) := by
  intro l
  induction l with
  | nil =>
      intro idx prevIdx hidx hplt hmin hstrict
      have hlen : speedOptions.length ≤ idx := by
        rw [← List.drop_eq_nil_iff]; exact hidx.symm
      simp only [closestReduce]
      exact ⟨hplt, fun j hj => hmin j (by omega), hstrict⟩
  | cons curr rest ih =>
      intro idx prevIdx hidx hplt hmin hstrict
      have hilt : idx < speedOptions.length := by
        by_contra hc
        push_neg at hc
        rw [List.drop_eq_nil_of_le hc] at hidx
        exact absurd hidx (by simp)
      rw [List.drop_eq_getElem_cons hilt] at hidx
      injection hidx with hcurr hrest
      have hgd : speedOptions.getD idx 0 = speedOptions[idx] := by
        rw [List.getD_eq_getElem?_getD, List.getElem?_eq_getElem hilt]
        rfl
      have hcd : |curr - rr| = distTo rr idx := by
        rw [hcurr, distTo, hgd]
      simp only [closestReduce]
      by_cases hc : |curr - rr| < |speedOptions.getD prevIdx 0 - rr|
      · rw [if_pos hc]
        have hc' : distTo rr idx < distTo rr prevIdx := by rw [← hcd]; exact hc
        apply ih (idx + 1) idx hrest hilt
        · intro j hj
          rcases (by omega : j < idx ∨ j = idx) with hlt | rfl
          · exact le_of_lt (lt_of_lt_of_le hc' (hmin j hlt))
          · exact le_refl _
        · intro j hj
          exact lt_of_lt_of_le hc' (hmin j hj)
      · rw [if_neg hc]
        have hc' : ¬ distTo rr idx < distTo rr prevIdx := by rw [← hcd]; exact hc
        apply ih (idx + 1) prevIdx hrest hplt
        · intro j hj
          rcases (by omega : j < idx ∨ j = idx) with hlt | rfl
          · exact hmin j hlt
          · exact le_of_not_lt hc'
        · exact hstrict

theorem getClosestSpeedIndex_lt (r : ℚ) : getClosestSpeedIndex r < speedOptions.length := by
  unfold getClosestSpeedIndex
  cases h : exactLoop (roundTenth r) speedOptions 0 with
  | some i =>
      exact ((exactLoop_spec _ speedOptions 0 (List.drop_zero _).symm).1 i h).2.1
  | none =>
      exact (closestReduce_spec _ speedOptions 0 0 (List.drop_zero _).symm (by simp [speedOptions])
        (fun j hj => by omega) (fun j hj => by omega)).1

theorem tenth_no_half (k n : ℤ) (h : |(k : ℚ) / 10 - (n : ℚ) / 10| ≤ 1 / 20) :
    |(k : ℚ) / 10 - (n : ℚ) / 10| < 1 / 20 := by
  have he : (k : ℚ) / 10 - (n : ℚ) / 10 = ((k - n : ℤ) : ℚ) / 10 := by
    push_cast
    ring
  rw [he] at h ⊢
  rcases eq_or_ne (k - n) 0 with h0 | h0
  · rw [h0]
    norm_num
  · exfalso
    have h1 : (1 : ℤ) ≤ |k - n| := Int.one_le_abs h0
    have h2 : (1 : ℚ) ≤ |((k - n : ℤ) : ℚ)| := by
      rw [← Int.cast_abs]
      exact_mod_cast h1
    rw [abs_div] at h
    have h10 : |(10 : ℚ)| = 10 := by norm_num
    rw [h10] at h
    linarith

theorem speedOptions_tenth_rep :
    ∀ j, j < speedOptions.length → ∃ k : ℤ, speedOptions.getD j 0 = (k : ℚ) / 10 := by
  intro j hj
  have hl : speedOptions.length = 10 := rfl
  rw [hl] at hj
  interval_cases j
  · exact ⟨5, by norm_num [speedOptions]⟩
  · exact ⟨10, by norm_num [speedOptions]⟩
  · exact ⟨15, by norm_num [speedOptions]⟩
  · exact ⟨20, by norm_num [speedOptions]⟩
  · exact ⟨25, by norm_num [speedOptions]⟩
  · exact ⟨30, by norm_num [speedOptions]⟩
  · exact ⟨35, by norm_num [speedOptions]⟩
  · exact ⟨40, by norm_num [speedOptions]⟩
  · exact ⟨45, by norm_num [speedOptions]⟩
  · exact ⟨50, by norm_num [speedOptions]⟩

theorem distTo_le_iff_lt (n : ℤ) (j : ℕ) (hj : j < speedOptions.length) :
    distTo ((n : ℚ) / 10) j ≤ 0.05 ↔ distTo ((n : ℚ) / 10) j < 0.05 := by
  obtain ⟨k, hk⟩ := speedOptions_tenth_rep j hj
  have heps : (0.05 : ℚ) = 1 / 20 := by norm_num
  rw [distTo, hk, heps]
  exact ⟨tenth_no_half k n, le_of_lt⟩

/-- Claim C9: for every finite rate, `getClosestSpeedIndex` rounds the
rate to one decimal, returns the lowest index whose table entry is
within epsilon (0.05) of the rounded value when one exists, and
otherwise the first-encountered index minimizing absolute distance to
the rounded value; the result always lies within the table bounds. -/
theorem getClosestSpeedIndex_spec (currentRate : ℚ) :
    getClosestSpeedIndex currentRate < speedOptions.length ∧
    ((∃ j, j < speedOptions.length ∧ distTo (roundTenth currentRate) j ≤ 0.05) →
      distTo (roundTenth currentRate) (getClosestSpeedIndex currentRate) ≤ 0.05 ∧
        ∀ j, j < getClosestSpeedIndex currentRate →
          ¬ distTo (roundTenth currentRate) j ≤ 0.05) ∧
    ((¬ ∃ j, j < speedOptions.length ∧ distTo (roundTenth currentRate) j ≤ 0.05) →
      (∀ j, j < speedOptions.length →
        distTo (roundTenth currentRate) (getClosestSpeedIndex currentRate) ≤
          distTo (roundTenth currentRate) j) ∧
        ∀ j, j < getClosestSpeedIndex currentRate →
          distTo (roundTenth currentRate) (getClosestSpeedIndex currentRate) <
            distTo (roundTenth currentRate) j) := by
  obtain ⟨n, hn⟩ : ∃ n : ℤ, roundTenth currentRate = (n : ℚ) / 10 :=
    ⟨⌊currentRate * 10 + 1 / 2⌋, rfl⟩
  have bridge : ∀ j, j < speedOptions.length →
      (distTo (roundTenth currentRate) j ≤ 0.05 ↔ distTo (roundTenth currentRate) j < 0.05) := by
    intro j hj
    rw [hn]
    exact distTo_le_iff_lt n j hj
  unfold getClosestSpeedIndex
  cases h : exactLoop (roundTenth currentRate) speedOptions 0 with
  | some i =>
      obtain ⟨-, hlt, hdi, hmin⟩ :=
        (exactLoop_spec _ speedOptions 0 (List.drop_zero _).symm).1 i h
      refine ⟨hlt, ?_, ?_⟩
      · intro _
        exact ⟨le_of_lt hdi, fun j hj hle =>
          hmin j (Nat.zero_le _) hj ((bridge j (lt_trans hj hlt)).1 hle)⟩
      · intro hne
        exact absurd ⟨i, hlt, le_of_lt hdi⟩ hne
  | none =>
      have hnone := (exactLoop_spec _ speedOptions 0 (List.drop_zero _).symm).2 h
      obtain ⟨hl, hmin, hstrict⟩ :=
        closestReduce_spec _ speedOptions 0 0 (List.drop_zero _).symm (by simp [speedOptions])
          (fun j hj => by omega) (fun j hj => by omega)
      refine ⟨hl, ?_, fun _ => ⟨hmin, hstrict⟩⟩
      rintro ⟨j, hj, hle⟩
      exact absurd ((bridge j hj).1 hle) (hnone j (Nat.zero_le _) hj)

/-- Witness for C9 at the concrete rate 1. -/
theorem getClosestSpeedIndex_spec_witness :
    distTo (roundTenth 1) (getClosestSpeedIndex 1) ≤ 0.05 ∧
    ∀ j, j < getClosestSpeedIndex 1 → ¬ distTo (roundTenth 1) j ≤ 0.05 :=
  (getClosestSpeedIndex_spec 1).2.1
    ⟨1, by simp [speedOptions], by norm_num [distTo, speedOptions, roundTenth]⟩

theorem gcsi_one : getClosestSpeedIndex 1 = 1 := by
  have h : exactLoop (roundTenth 1) speedOptions 0 = some 1 := by
    have hr : roundTenth 1 = 1 := by norm_num [roundTenth]
    rw [hr]
    norm_num [speedOptions, exactLoop, abs_sub_lt_iff, le_abs, lt_abs]
  unfold getClosestSpeedIndex
  rw [h]

theorem keydown_initState_eval :
    keydownStep "." false false false initState =
      { state := { isUpdatingSpeed := true, isApplyingNavigationSpeed := false,
                   isNavigating := false, isSeeking := false,
                   lastRateChangeTime := 0, lastRateChangeValue := 1,
                   videoRate := 1.5, store := saveKeyboardSpeed 1.5 emptyStore },
        tasks := [(0, Task.menuRefresh 1.5)], writes := [1.5] } := by
  simp only [keydownStep, initState, emptyStore, loadIncreaseSpeedKey, loadDecreaseSpeedKey,
    gcsi_one, speedOptions, saveKeyboardSpeed, Nat.min_def, List.getD_cons_succ,
    List.getD_cons_zero]
  norm_num

theorem runTask_menuRefresh_store (r : ℚ) (s : XState) :
    (runTask (Task.menuRefresh r) s).state.store = s.store ∧
    (runTask (Task.menuRefresh r) s).tasks = [] ∧
    (runTask (Task.menuRefresh r) s).writes = [] := by
  simp only [runTask, updateYouTubeSpeedSettingFn]
  split_ifs <;> simp

theorem runTask_menuRefresh_flagTrue (r : ℚ) (s : XState) (h : s.isUpdatingSpeed = true) :
    runTask (Task.menuRefresh r) s = ⟨s, [], []⟩ := by
  simp only [runTask, updateYouTubeSpeedSettingFn, h, if_true]

theorem ratechange_flagTrue_noop (now : ℤ) (s : XState) (h : s.isUpdatingSpeed = true) :
    ratechangeStep now s = ⟨s, [], []⟩ := by
  simp only [ratechangeStep, h, if_true]

/-- Claim C1, evaluated at the failing input: a keyboard increase press
at rate 1 sets the suppression flag and writes 1.5, but its only
scheduled continuation (the 0 ms menu refresh) leaves the flag set, so
after every scheduled delay has elapsed the flag is still true and a
later genuine external rate change (to 2, long after any settle delay)
is ignored by the ratechange handler instead of being processed. -/
theorem keydown_suppression_flag_never_reset :
    afterKeydownState.isUpdatingSpeed = true ∧
    (keydownStep "." false false false initState).tasks = [(0, Task.menuRefresh 1.5)] ∧
    afterMenuRefreshState = afterKeydownState ∧
    afterMenuRefreshState.isUpdatingSpeed = true ∧
    (ratechangeStep 100000 { afterMenuRefreshState with videoRate := 2 }).state =
      { afterMenuRefreshState with videoRate := 2 } := by
  have h1 : afterKeydownState.isUpdatingSpeed = true := by
    rw [afterKeydownState, keydown_initState_eval]
  have h2 : afterMenuRefreshState = afterKeydownState := by
    rw [afterMenuRefreshState, runTask_menuRefresh_flagTrue 1.5 afterKeydownState h1]
  refine ⟨h1, ?_, h2, h2 ▸ h1, ?_⟩
  · rw [keydown_initState_eval]
  · rw [ratechange_flagTrue_noop 100000 _ (by rw [h2]; exact h1)]

/-- Claim C2 counterexample: at the concrete initial state, the keydown
handler both writes rate 1.5 to the media element and persists it as
the preferred speed synchronously, inside the handler itself — the
store of the handler's immediate result already holds 1.5 although the
store held nothing before and no settle delay has elapsed. -/
theorem keydown_persist_sync_cex :
    (keydownStep "." false false false initState).writes = [1.5] ∧
    (keydownStep "." false false false initState).state.store.preferredSpeed =
      StoredNum.num 1.5 ∧
    initState.store.preferredSpeed = StoredNum.absent := by
  rw [keydown_initState_eval]
  exact ⟨rfl, rfl, rfl⟩

/-- Claim C2 (amended): a user-command rate change persists the target
rate as the preferred speed synchronously inside the command handler
(the keydown handler via saveKeyboardSpeed, the augmented-menu click
handler via savePreferredSpeed); the continuations those handlers
schedule never touch the store. -/
theorem user_command_persists_synchronously (s : XState) (key : String)
    (c sh ed : Bool) (q : ℚ) :
    (∀ w ∈ (keydownStep key c sh ed s).writes,
      (keydownStep key c sh ed s).state.store.preferredSpeed = StoredNum.num w) ∧
    (∀ p ∈ (keydownStep key c sh ed s).tasks,
      ∀ s2 : XState, (runTask p.2 s2).state.store = s2.store) ∧
    (menuClickStep q s).state.store.preferredSpeed = StoredNum.num q ∧
    (∀ p ∈ (menuClickStep q s).tasks,
      ∀ s2 : XState, (runTask p.2 s2).state.store = s2.store) := by
  refine ⟨?_, ?_, rfl, ?_⟩
  · intro w hw
    simp only [keydownStep] at hw ⊢
    split_ifs at hw ⊢ <;> simp_all [saveKeyboardSpeed]
  · intro p hp s2
    simp only [keydownStep] at hp
    split_ifs at hp <;> simp_all <;>
      exact (runTask_menuRefresh_store _ s2).1
  · intro p hp s2
    simp only [menuClickStep, List.mem_singleton] at hp
    rw [hp]
    exact (runTask_menuRefresh_store _ s2).1

/-- Witness for the amended C2 at the concrete initial state. -/
theorem user_command_persists_synchronously_witness :
    (keydownStep "." false false false initState).state.store.preferredSpeed =
      StoredNum.num 1.5 :=
  (user_command_persists_synchronously initState "." false false false 1).1 1.5
    (by rw [keydown_initState_eval]; exact List.mem_singleton.2 rfl)

/-- Claim C10: every keyboard-driven speed change that actually writes
a new rate stores the identical chosen rate in both the keyboard-speed
entry and the preferred-speed entry, so after the command the two
stored values are equal. -/
theorem keyboard_saves_both_entries (s : XState) (key : String) (c sh ed : Bool) :
    ∀ w ∈ (keydownStep key c sh ed s).writes,
      (keydownStep key c sh ed s).state.store.keyboardSpeed = StoredNum.num w ∧
      (keydownStep key c sh ed s).state.store.preferredSpeed = StoredNum.num w := by
  intro w hw
  simp only [keydownStep] at hw ⊢
  split_ifs at hw ⊢ <;> simp_all [saveKeyboardSpeed]

/-- Witness for C10 at the concrete initial state. -/
theorem keyboard_saves_both_entries_witness :
    (keydownStep "." false false false initState).state.store.keyboardSpeed =
      StoredNum.num 1.5 ∧
    (keydownStep "." false false false initState).state.store.preferredSpeed =
      StoredNum.num 1.5 :=
  keyboard_saves_both_entries initState "." false false false 1.5
    (by rw [keydown_initState_eval]; exact List.mem_singleton.2 rfl)

/-- Claim C3 counterexample: with the suppression flag clear, a rate
report of 1.5 arriving 50 ms after a last observed rate of 1.47 is
within epsilon = 0.05 of it, yet the handler does not return untouched:
it persists 1.5 as the preferred speed (the code's dedup tolerance is
0.01, not 0.05). -/
theorem ratechange_dedup_cex :
    dedupCexState.isUpdatingSpeed = false ∧
    ((50 : ℤ) - dedupCexState.lastRateChangeTime < 100) ∧
    |dedupCexState.videoRate - dedupCexState.lastRateChangeValue| ≤ 0.05 ∧
    (ratechangeStep 50 dedupCexState).state.store.preferredSpeed = StoredNum.num 1.5 ∧
    dedupCexState.store.preferredSpeed = StoredNum.absent := by
  refine ⟨rfl, by norm_num [dedupCexState], ?_, ?_, rfl⟩
  · norm_num [dedupCexState, abs_le]
  · norm_num [ratechangeStep, dedupCexState, emptyStore, speedOptions, loadNavigationMode,
      loadPreferredSpeed, savePreferredSpeed, abs_sub_lt_iff, le_abs, lt_abs, abs_lt]

/-- Claim C3 (amended): with the suppression flag clear, the ratechange
handler returns with no state update, no persistence and no scheduled
work whenever less than 100 ms have elapsed since the last observed
rate change and the new rate is within 0.01 (not 0.05) of the last
observed rate. -/
theorem ratechange_dedup_spec (s : XState) (now : ℤ)
    (hflag : s.isUpdatingSpeed = false)
    (ht : now - s.lastRateChangeTime < 100)
    (hv : |s.videoRate - s.lastRateChangeValue| < 0.01) :
    ratechangeStep now s = ⟨s, [], []⟩ := by
  simp only [ratechangeStep, hflag, Bool.false_eq_true, if_false]
  rw [if_pos ⟨ht, hv⟩]

/-- Witness for the amended C3: a rate report identical to the last one
arriving 50 ms later is dropped entirely. -/
theorem ratechange_dedup_spec_witness :
    ratechangeStep 50 initState = ⟨initState, [], []⟩ :=
  ratechange_dedup_spec initState 50 rfl (by norm_num [initState]) (by norm_num [initState])

/-- Claim C5: when navigation mode is Continue, a rate report of 1
arrives, the persisted preferred speed exceeds 1 and navigation is in
progress (no seek, no navigation-apply, dedup passed), the handler does
not persist 1: it leaves the store untouched and schedules a 500 ms
re-assertion that, if the rate is still 1 when it fires, rewrites the
persisted speed to the media element. -/
theorem navigation_reset_reassertion (s : XState) (now : ℤ)
    (hflag : s.isUpdatingSpeed = false)
    (hdedup : ¬(now - s.lastRateChangeTime < 100 ∧
      |s.videoRate - s.lastRateChangeValue| < 0.01))
    (hrate : s.videoRate = 1)
    (hseek : s.isSeeking = false)
    (happly : s.isApplyingNavigationSpeed = false)
    (hmode : loadNavigationMode s.store = "continue")
    (hsaved : loadPreferredSpeed s.store > 1)
    (hnav : s.isNavigating = true) :
    (ratechangeStep now s).state.store = s.store ∧
    (ratechangeStep now s).tasks = [(500, Task.navReassert (loadPreferredSpeed s.store))] ∧
    (ratechangeStep now s).writes = [] ∧
    (∀ s2 : XState, s2.videoRate = 1 →
      (runTask (Task.navReassert (loadPreferredSpeed s.store)) s2).writes =
        [loadPreferredSpeed s.store] ∧
      (runTask (Task.navReassert (loadPreferredSpeed s.store)) s2).state.videoRate =
        loadPreferredSpeed s.store ∧
      (runTask (Task.navReassert (loadPreferredSpeed s.store)) s2).tasks =
        [(100, Task.settleUpdate (loadPreferredSpeed s.store))]) := by
  have hmain : ratechangeStep now s =
      ⟨{ s with lastRateChangeTime := now, lastRateChangeValue := s.videoRate },
       [(500, Task.navReassert (loadPreferredSpeed s.store))], []⟩ := by
    simp only [ratechangeStep]
    split_ifs with h1 h2 h3 h4 <;> simp_all [one_mem_speedOptions]
  rw [hmain]
  refine ⟨rfl, rfl, rfl, ?_⟩
  intro s2 h2
  simp [runTask, h2]

/-- Witness for C5 at the concrete mid-navigation state. -/
theorem navigation_reset_reassertion_witness :
    (ratechangeStep 0 navCexState).state.store = navCexState.store ∧
    (ratechangeStep 0 navCexState).tasks =
      [(500, Task.navReassert (loadPreferredSpeed navCexState.store))] ∧
    (ratechangeStep 0 navCexState).writes = [] :=
  have h := navigation_reset_reassertion navCexState 0 rfl
    (by norm_num [navCexState, abs_le]) rfl rfl rfl
    (by simp [navCexState, navCexStore, loadNavigationMode, navigationModeValues])
    (by norm_num [navCexState, navCexStore, loadPreferredSpeed, speedOptions])
    rfl
  ⟨h.1, h.2.1, h.2.2.1⟩

/-- Claim C6 counterexample: the claim demands post-seek recovery for
every preferred speed, but with preferred speed 1 persisted and the
media rate at 2 (diverging by more than epsilon), the post-seek recheck
does nothing: no write, no rate change. -/
theorem seek_recovery_neutral_cex :
    loadPreferredSpeed seekNeutralState.store = 1 ∧
    |seekNeutralState.videoRate - loadPreferredSpeed seekNeutralState.store| > 0.05 ∧
    runTask Task.seekRecheck seekNeutralState = ⟨seekNeutralState, [], []⟩ := by
  have h1 : loadPreferredSpeed seekNeutralState.store = 1 := by
    simp [loadPreferredSpeed, seekNeutralState, neutralPrefStore, speedOptions]
  refine ⟨h1, ?_, ?_⟩
  · rw [h1]
    norm_num [seekNeutralState, abs_le]
  · simp only [runTask, h1]
    norm_num

/-- Claim C6 (amended): while a seek is in progress an observed rate
change never touches the store and performs no write; the seeked
handler clears the flag and schedules the recheck; and the recheck
re-applies the preferred speed whenever it diverges from the media rate
by more than epsilon — but only when the preferred speed is not 1. -/
theorem seek_persistence_and_recovery :
    (∀ (s : XState) (now : ℤ), s.isSeeking = true →
      (ratechangeStep now s).state.store = s.store ∧ (ratechangeStep now s).writes = []) ∧
    (∀ s : XState, (seekedStep s).state.isSeeking = false ∧
      (seekedStep s).tasks = [(100, Task.seekRecheck)]) ∧
    (∀ s : XState, loadPreferredSpeed s.store ≠ 1 →
      |s.videoRate - loadPreferredSpeed s.store| > 0.05 →
      (runTask Task.seekRecheck s).state.videoRate = loadPreferredSpeed s.store ∧
      (runTask Task.seekRecheck s).writes = [loadPreferredSpeed s.store] ∧
      (runTask Task.seekRecheck s).state.isUpdatingSpeed = true) := by
  refine ⟨?_, fun s => ⟨rfl, rfl⟩, ?_⟩
  · intro s now hseek
    simp only [ratechangeStep]
    split_ifs <;> simp_all
  · intro s h1 h2
    simp only [runTask]
    rw [if_pos ⟨h1, h2⟩]
    exact ⟨rfl, rfl, rfl⟩

/-- Witness for the amended C6: a mid-seek rate report leaves the store
untouched, and the recheck at preferred speed 3 and media rate 1
re-applies 3. -/
theorem seek_persistence_and_recovery_witness :
    ((ratechangeStep 0 seekWitState).state.store = seekWitState.store ∧
      (ratechangeStep 0 seekWitState).writes = []) ∧
    ((runTask Task.seekRecheck seekWitState).state.videoRate =
        loadPreferredSpeed seekWitState.store ∧
      (runTask Task.seekRecheck seekWitState).writes =
        [loadPreferredSpeed seekWitState.store] ∧
      (runTask Task.seekRecheck seekWitState).state.isUpdatingSpeed = true) :=
  ⟨seek_persistence_and_recovery.1 seekWitState 0 rfl,
   seek_persistence_and_recovery.2.2 seekWitState
     (by norm_num [loadPreferredSpeed, seekWitState, pref3Store, speedOptions])
     (by norm_num [loadPreferredSpeed, seekWitState, pref3Store, speedOptions, abs_le])⟩

theorem saveNavigationMode_keys (mode : String) (st : Store) :
    (saveNavigationMode mode st).increaseKey = st.increaseKey ∧
    (saveNavigationMode mode st).decreaseKey = st.decreaseKey := by
  unfold saveNavigationMode
  split_ifs <;> exact ⟨rfl, rfl⟩

theorem saveCustomNavigationSpeed_keys (speed : ℚ) (st : Store) :
    (saveCustomNavigationSpeed speed st).increaseKey = st.increaseKey ∧
    (saveCustomNavigationSpeed speed st).decreaseKey = st.decreaseKey := by
  unfold saveCustomNavigationSpeed
  split_ifs <;> exact ⟨rfl, rfl⟩

/-- Claim C7 counterexample: saving with both shortcut inputs set to
'k' is rejected for the key entries, but the navigation mode switched
in the same form has already been committed — the save does change a
persisted preference before the duplicate-key validation fires. -/
theorem settings_save_partial_commit_cex :
    modalCex.increaseInputValue = modalCex.decreaseInputValue ∧
    (saveSettingsClick modalCex modalCexStore).navigationMode = some "default" ∧
    modalCexStore.navigationMode = some "continue" ∧
    (saveSettingsClick modalCex modalCexStore).increaseKey = modalCexStore.increaseKey ∧
    (saveSettingsClick modalCex modalCexStore).decreaseKey = modalCexStore.decreaseKey := by
  refine ⟨rfl, ?_, rfl, ?_, ?_⟩ <;>
    simp [saveSettingsClick, modalCex, modalCexStore, saveNavigationMode,
      saveCustomNavigationSpeed, navigationModeValues]

/-- Claim C7 (amended): when the resolved increase and decrease keys
coincide, the save handler leaves the two key entries untouched, but
the navigation mode (and, in custom mode, the custom speed) has already
been committed by the time the validation rejects the keys. -/
theorem settings_save_rejects_keys_only (m : ModalState) (st : Store)
    (hdup : (if m.increaseInputValue = "" then "." else m.increaseInputValue) =
            (if m.decreaseInputValue = "" then "," else m.decreaseInputValue)) :
    saveSettingsClick m st =
      (if m.selectedMode = "custom"
        then saveCustomNavigationSpeed m.customSpeedValue (saveNavigationMode m.selectedMode st)
        else saveNavigationMode m.selectedMode st) ∧
    (saveSettingsClick m st).increaseKey = st.increaseKey ∧
    (saveSettingsClick m st).decreaseKey = st.decreaseKey := by
  have h1 : saveSettingsClick m st =
      (if m.selectedMode = "custom"
        then saveCustomNavigationSpeed m.customSpeedValue (saveNavigationMode m.selectedMode st)
        else saveNavigationMode m.selectedMode st) := by
    simp only [saveSettingsClick]
    rw [if_pos hdup]
  refine ⟨h1, ?_, ?_⟩ <;> rw [h1] <;> split_ifs with hc
  · rw [(saveCustomNavigationSpeed_keys _ _).1, (saveNavigationMode_keys _ _).1]
  · exact (saveNavigationMode_keys _ _).1
  · rw [(saveCustomNavigationSpeed_keys _ _).2, (saveNavigationMode_keys _ _).2]
  · exact (saveNavigationMode_keys _ _).2

/-- Witness for the amended C7 at the concrete modal state. -/
theorem settings_save_rejects_keys_only_witness :
    (saveSettingsClick modalCex modalCexStore).increaseKey = modalCexStore.increaseKey ∧
    (saveSettingsClick modalCex modalCexStore).decreaseKey = modalCexStore.decreaseKey :=
  ⟨(settings_save_rejects_keys_only modalCex modalCexStore (by simp [modalCex])).2.1,
   (settings_save_rejects_keys_only modalCex modalCexStore (by simp [modalCex])).2.2⟩

/-- Claim C8 counterexample: the stored increase-key value "ab" is not
a single printable character, yet loading it yields "ab" rather than
the documented default '.' — shortcut-key loading performs no
validation beyond truthiness. -/
theorem invalid_key_not_defaulted_cex :
    badKeyStore.increaseKey = some "ab" ∧ ("ab" : String).length = 2 ∧
    loadIncreaseSpeedKey badKeyStore = "ab" ∧ ("ab" : String) ≠ "." := by
  refine ⟨rfl, rfl, ?_, by simp⟩
  simp [loadIncreaseSpeedKey, badKeyStore]

/-- Claim C8 (amended): `loadNavigationMode` returns `m` after
`saveNavigationMode m` for every valid mode; absent or invalid stored
preferred speed, navigation mode and custom navigation speed load as
the defaults 1, continue and 1; for the shortcut keys only an absent or
empty stored value loads as the default ('.' and ','), while any other
stored string — valid or not — is returned as-is. -/
theorem preference_roundtrip_defaults :
    (∀ (m : String) (st : Store), m ∈ navigationModeValues →
      loadNavigationMode (saveNavigationMode m st) = m) ∧
    (∀ st : Store, (∀ q : ℚ, st.preferredSpeed = StoredNum.num q → q ∉ speedOptions) →
      loadPreferredSpeed st = 1) ∧
    (∀ st : Store, (∀ m : String, st.navigationMode = some m →
        ¬(m ≠ "" ∧ m ∈ navigationModeValues)) →
      loadNavigationMode st = "continue") ∧
    (∀ st : Store, (∀ q : ℚ, st.customNavigationSpeed = StoredNum.num q → q ∉ speedOptions) →
      loadCustomNavigationSpeed st = 1) ∧
    (∀ st : Store, st.increaseKey = none ∨ st.increaseKey = some "" →
      loadIncreaseSpeedKey st = ".") ∧
    (∀ st : Store, st.decreaseKey = none ∨ st.decreaseKey = some "" →
      loadDecreaseSpeedKey st = ",") ∧
    (∀ (st : Store) (k : String), st.increaseKey = some k → k ≠ "" →
      loadIncreaseSpeedKey st = k) ∧
    (∀ (st : Store) (k : String), st.decreaseKey = some k → k ≠ "" →
      loadDecreaseSpeedKey st = k) := by
  refine ⟨?_, ?_, ?_, ?_, ?_, ?_, ?_, ?_⟩
  · intro m st hm
    have hm' : m ≠ "" := by
      intro h
      subst h
      simp [navigationModeValues] at hm
    unfold saveNavigationMode
    rw [if_pos hm]
    simp [loadNavigationMode, hm, hm']
  · intro st h
    rcases hsp : st.preferredSpeed with _ | _ | q | _ <;> simp [loadPreferredSpeed, hsp]
    exact fun hq => absurd hq (h q hsp)
  · intro st h
    rcases hnm : st.navigationMode with _ | m
    · simp [loadNavigationMode, hnm]
    · simp only [loadNavigationMode, hnm]
      rw [if_neg (h m hnm)]
  · intro st h
    rcases hsp : st.customNavigationSpeed with _ | _ | q | _ <;>
      simp [loadCustomNavigationSpeed, hsp]
    exact fun hq => absurd hq (h q hsp)
  · intro st h
    rcases h with h | h <;> simp [loadIncreaseSpeedKey, h]
  · intro st h
    rcases h with h | h <;> simp [loadDecreaseSpeedKey, h]
  · intro st k hk hne
    simp [loadIncreaseSpeedKey, hk, hne]
  · intro st k hk hne
    simp [loadDecreaseSpeedKey, hk, hne]

/-- Witness for the amended C8: round trip at mode default, default
fallbacks on the empty store, and the unvalidated key "ab" loading
as-is. -/
theorem preference_roundtrip_defaults_witness :
    loadNavigationMode (saveNavigationMode "default" emptyStore) = "default" ∧
    loadPreferredSpeed emptyStore = 1 ∧
    loadNavigationMode emptyStore = "continue" ∧
    loadCustomNavigationSpeed emptyStore = 1 ∧
    loadIncreaseSpeedKey emptyStore = "." ∧
    loadDecreaseSpeedKey emptyStore = "," ∧
    loadIncreaseSpeedKey badKeyStore = "ab" :=
  ⟨preference_roundtrip_defaults.1 "default" emptyStore (by simp [navigationModeValues]),
   preference_roundtrip_defaults.2.1 emptyStore (fun q h => StoredNum.noConfusion h),
   preference_roundtrip_defaults.2.2.1 emptyStore (fun m h => Option.noConfusion h),
   preference_roundtrip_defaults.2.2.2.1 emptyStore (fun q h => StoredNum.noConfusion h),
   preference_roundtrip_defaults.2.2.2.2.1 emptyStore (Or.inl rfl),
   preference_roundtrip_defaults.2.2.2.2.2.1 emptyStore (Or.inl rfl),
   preference_roundtrip_defaults.2.2.2.2.2.2.1 badKeyStore "ab" rfl (by simp)⟩

/-- Claim C4: for all operations with table-valid targets, every value
the script writes to the media element's playback rate is a member of
`speedOptions`, and every continuation the operations schedule is
table-safe, so that its own writes (and those of the continuations it
schedules in turn) are again table members: the invariant holds along
every sequence of operations and scheduled continuations. -/
theorem writes_always_table_members :
    (∀ (op : Op) (s : XState), OpValid op →
      (∀ w ∈ (runOp op s).writes, w ∈ speedOptions) ∧
      (∀ p ∈ (runOp op s).tasks, TaskSafe p.2)) ∧
    (∀ (t : Task) (s : XState), TaskSafe t →
      (∀ w ∈ (runTask t s).writes, w ∈ speedOptions) ∧
      (∀ p ∈ (runTask t s).tasks, TaskSafe p.2)) := by
  constructor
  · intro op s hop
    cases op with
    | keydown key c sh ed =>
        constructor
        · intro w hw
          have hb := getClosestSpeedIndex_lt s.videoRate
          have hlen : speedOptions.length = 10 := rfl
          simp only [runOp, keydownStep] at hw
          split_ifs at hw <;>
            first
              | exact absurd hw (List.not_mem_nil _)
              | (rw [List.mem_singleton] at hw
                 rw [hw]
                 exact speedOptions_getD_mem _ (by omega))
        · intro p hp
          simp only [runOp, keydownStep] at hp
          split_ifs at hp <;> simp_all [TaskSafe]
    | menuClick speed =>
        refine ⟨?_, ?_⟩
        · intro w hw
          simp only [runOp, menuClickStep, List.mem_singleton] at hw
          rw [hw]
          exact hop
        · intro p hp
          simp only [runOp, menuClickStep, List.mem_singleton] at hp
          rw [hp]
          simp [TaskSafe]
    | ratechangeEv now =>
        constructor
        · intro w hw
          simp only [runOp, ratechangeStep] at hw
          split_ifs at hw <;> simp_all
        · intro p hp
          simp only [runOp, ratechangeStep] at hp
          split_ifs at hp <;> simp_all [TaskSafe]
          exact loadPreferredSpeed_mem _
    | seekingEv =>
        exact ⟨fun w hw => absurd hw (by simp [runOp, seekingStep]),
          fun p hp => by simp [runOp, seekingStep] at hp⟩
    | seekedEv =>
        refine ⟨fun w hw => absurd hw (by simp [runOp, seekedStep]), fun p hp => ?_⟩
        simp only [runOp, seekedStep, List.mem_singleton] at hp
        rw [hp]
        simp [TaskSafe]
    | applyPreferred isNavigation =>
        constructor
        · intro w hw
          simp only [runOp, applyPreferredSpeedStep] at hw
          split_ifs at hw <;> simp_all
          · exact getNavigationSpeed_mem _
          · exact loadPreferredSpeed_mem _
        · intro p hp
          simp only [runOp, applyPreferredSpeedStep] at hp
          split_ifs at hp <;> simp_all [TaskSafe]
  · intro t s ht
    cases t with
    | menuRefresh r =>
        exact ⟨fun w hw => absurd hw (by simp [(runTask_menuRefresh_store r s).2.2]),
          fun p hp => by rw [(runTask_menuRefresh_store r s).2.1] at hp; simp at hp⟩
    | savePref r =>
        exact ⟨fun w hw => by simp [runTask] at hw, fun p hp => by simp [runTask] at hp⟩
    | applySettle r isNavigation =>
        constructor
        · intro w hw
          simp only [runTask] at hw
          split_ifs at hw <;> simp_all
        · intro p hp
          simp only [runTask] at hp
          split_ifs at hp <;> simp_all [TaskSafe]
    | settleUpdate r =>
        exact ⟨fun w hw => by simp [runTask] at hw, fun p hp => by simp [runTask] at hp⟩
    | seekRecheck =>
        constructor
        · intro w hw
          simp only [runTask] at hw
          split_ifs at hw <;> simp_all
          exact loadPreferredSpeed_mem _
        · intro p hp
          simp only [runTask] at hp
          split_ifs at hp <;> simp_all [TaskSafe]
    | navReassert r =>
        constructor
        · intro w hw
          simp only [runTask] at hw
          split_ifs at hw <;> simp_all [TaskSafe]
        · intro p hp
          simp only [runTask] at hp
          split_ifs at hp <;> simp_all [TaskSafe]

/-- Witness for C4: the rate the keyboard step writes from the concrete
initial state is a table member. -/
theorem writes_always_table_members_witness : (1.5 : ℚ) ∈ speedOptions :=
  (writes_always_table_members.1 (Op.keydown "." false false false) initState trivial).1 1.5
    (by
      show (1.5 : ℚ) ∈ (keydownStep "." false false false initState).writes
      rw [keydown_initState_eval]
      exact List.mem_singleton.2 rfl)

end YtSpeed
